import Mathlib

/-!
Shallow embedding of the cycle-analysis core of the planner22 repository.

Sources:
* `src/assets/js/main.js`, class `CyclePredictionEngine`
* `src/unnamed/part_006`, class `CycleAnalyzer`

Modelling conventions:
* JavaScript numbers are modelled as exact rationals (`ℚ`); the code performs
  only ratios of small integers, so `ℚ` matches the float computation except
  for rounding noise far below every threshold compared against.
* `Math.sqrt` is modelled with `Real.sqrt` (a real, not a rational, value);
  the fields holding it live in `ℝ`.
* Dates are millisecond timestamps (`ℚ`), exactly as the code manipulates them
  through `Date.getTime()`; one day is `86400000` ms.  The single
  `setDate(getDate()+1)` loop is modelled as a `+ 1 day` step (no DST in the
  model).
* A record's possibly-missing `start` field is `Option ℚ`; `none` models a
  null/undefined (falsy) start.
* A JavaScript exception is modelled by `Option.none` of the function result.
* `settings.lutealLength || 14`: JavaScript `||` takes the default when the
  field is absent *or* zero, see `lutealOf`.
* `new Date().getTime()` (the engine reads the clock on the empty-history
  path) is modelled by an explicit `today` parameter.
* `Array.prototype.sort` with a consistent comparator is stable (ES2019), so
  its result is the unique stable sort; we use `List.insertionSort`, which is
  stable.
-/

namespace Planner

/-- Milliseconds in one day, as used by every date computation in the source
(`24 * 60 * 60 * 1000`). -/
def msPerDay : ℚ := 86400000

/-- JavaScript `Math.round(x*100)/100` (round half toward +∞). -/
def round2 (x : ℚ) : ℚ := ((⌊x * 100 + 1/2⌋ : ℤ) : ℚ) / 100

/-- JavaScript `Math.round(x*10)/10`. -/
def round1 (x : ℚ) : ℚ := ((⌊x * 10 + 1/2⌋ : ℤ) : ℚ) / 10

/-- JavaScript `Math.round(x)`. -/
def round0 (x : ℚ) : ℚ := ((⌊x + 1/2⌋ : ℤ) : ℚ)

/-- JavaScript `Math.round(x*100)/100` on a real (square-root) value. -/
noncomputable def round2R (x : ℝ) : ℝ := ((⌊x * 100 + 1/2⌋ : ℤ) : ℝ) / 100

/-- Input record `{start, length}`.  `start = none` models a missing/falsy
start field. -/
structure CycleRecord where
  start : Option ℚ
  length : ℚ
deriving DecidableEq

/-- The settings object `{lutealLength, advancedEstimation}`. -/
structure Settings where
  lutealLength : Option ℚ := none
  advancedEstimation : Bool := false

/-- `settings.lutealLength || this.defaultLutealLength` — JavaScript `||`
falls back on the default when the field is absent or equal to `0`. -/
def lutealOf (s : Settings) : ℚ :=
  match s.lutealLength with
  | none => 14
  | some l => if l = 0 then 14 else l

/-- The statistics object returned by `calculateStatistics`.  The zero-record
branch of the source returns an object without `shortest`/`longest`/`trend`
keys, hence the `Option` types. -/
structure Stats where
  averageLength : ℚ
  standardDeviation : ℝ
  irregularityScore : ℝ
  totalCycles : ℕ
  shortest : Option ℚ := none
  longest : Option ℚ := none
  trend : Option ℚ := none
  dataQuality : String

structure NextCycle where
  startDate : ℚ
  estimatedLength : ℚ
  endDate : ℚ
deriving DecidableEq

structure FollowCycle where
  startDate : ℚ
  estimatedLength : ℚ
deriving DecidableEq

structure Predictions where
  nextCycle : NextCycle
  following3Cycles : List FollowCycle
  ovulationDate : ℚ
  lutealPhaseStart : ℚ
deriving DecidableEq

structure FertileDay where
  date : ℚ
  fertility : ℚ
deriving DecidableEq

structure FertilityWindow where
  ovulationDate : ℚ
  windowStart : ℚ
  windowEnd : ℚ
  fertilePhase : List FertileDay
deriving DecidableEq

structure Recommendation where
  type : String
  priority : String
  message : String
deriving DecidableEq

/-- The consolidated report returned by `analyzeCycles`. -/
structure Report where
  statistics : Stats
  predictions : Predictions
  fertilityWindow : FertilityWindow
  recommendations : List Recommendation
  confidence : ℚ

namespace CyclePredictionEngine

/-- Constructor constant `this.minCycleLength`. -/
def minCycleLength : ℚ := 21

/-- Constructor constant `this.maxCycleLength`. -/
def maxCycleLength : ℚ := 35

/-- Constructor constant `this.defaultLutealLength` (used through
`lutealOf`). -/
def defaultLutealLength : ℚ := 14

/-- `cleanCycleData`: drop records with falsy `start`/`length`, drop lengths
outside `[21, 35]`, then stable-sort ascending by start date. -/
def cleanCycleData (cycles : List CycleRecord) : List CycleRecord :=
  List.insertionSort (fun a b => a.start.getD 0 ≤ b.start.getD 0)
    (((cycles.filter fun c => c.start.isSome && decide (c.length ≠ 0))).filter
      fun c => decide (minCycleLength ≤ c.length) && decide (c.length ≤ maxCycleLength))

/-- Engine `calculateVariance` (population variance; no empty-list guard in
the engine version — `ℚ` division by zero yields `0`, exactly the value the
callers would feed onward in the reachable cases). -/
def calculateVariance (values : List ℚ) : ℚ :=
  let mean := values.sum / values.length
  (values.map fun v => (v - mean) ^ 2).sum / values.length

/-- `calculateTrend`: 0 below 4 cycles, else second-half mean minus
first-half mean of lengths, split at `floor(n/2)`. -/
def calculateTrend (cycles : List CycleRecord) : ℚ :=
  if cycles.length < 4 then 0
  else
    let midpoint := cycles.length / 2
    let firstHalf := cycles.take midpoint
    let secondHalf := cycles.drop midpoint
    let avgFirst := (firstHalf.map fun c => c.length).sum / firstHalf.length
    let avgSecond := (secondHalf.map fun c => c.length).sum / secondHalf.length
    avgSecond - avgFirst

/-- `assessDataQuality` of the prediction engine. -/
def assessDataQuality (cycles : List CycleRecord) : String :=
  if cycles.length = 0 then "insufficient"
  else if cycles.length < 3 then "limited"
  else if cycles.length < 6 then "moderate"
  else "good"

/-- `calculateStatistics`.  The standard deviation and the irregularity score
(coefficient of variation) involve `Math.sqrt` and are therefore real-valued;
note that the irregularity score is computed from the *unrounded* standard
deviation and average, as in the source, and only rounded in the returned
object. -/
noncomputable def calculateStatistics (cycles : List CycleRecord) : Stats :=
  if cycles = [] then
    { averageLength := 28, standardDeviation := 0, irregularityScore := 0,
      totalCycles := 0, dataQuality := "insufficient" }
  else
    let lengths := cycles.map fun c => c.length
    let averageLength : ℚ := lengths.sum / lengths.length
    let variance : ℚ :=
      (lengths.map fun len => (len - averageLength) ^ 2).sum / lengths.length
    let standardDeviation : ℝ := Real.sqrt (variance : ℝ)
    let irregularityScore : ℝ := standardDeviation / (averageLength : ℝ) * 100
    { averageLength := round2 averageLength,
      standardDeviation := round2R standardDeviation,
      irregularityScore := round2R irregularityScore,
      totalCycles := cycles.length,
      shortest := lengths.min?,
      longest := lengths.max?,
      trend := some (calculateTrend cycles),
      dataQuality := assessDataQuality cycles }

/-- The weighted blend of the three most recent cycles used by the
`advancedEstimation` branch: `slice(-3)` zipped index-wise with the weight
array `[0.5, 0.3, 0.2]` and reduced. -/
def weightedRecentLength (cycles : List CycleRecord) : ℚ :=
  (((cycles.drop (cycles.length - 3)).zip [(0.5 : ℚ), 0.3, 0.2]).foldl
    (fun sum p => sum + p.1.length * p.2) 0)

/-- `predictNextCycleStart`.  When the (cleaned) history is empty the source
reads `.start` of `undefined` and throws a `TypeError`; this is modelled by
`none`. -/
def predictNextCycleStart (cycles : List CycleRecord) (stats : Stats)
    (settings : Settings) : Option ℚ :=
  match cycles.getLast? with
  | none => none
  | some lastCycle =>
    let predictedLength : ℚ :=
      if settings.advancedEstimation = true ∧ 3 ≤ cycles.length then
        weightedRecentLength cycles
      else stats.averageLength
    some (lastCycle.start.getD 0 + predictedLength * msPerDay)

/-- `calculateRecentTrend`: ordinary least-squares slope of length against
index over the given cycles; 0 below 3 cycles.  The source's `slope || 0`
(NaN from a zero denominator becomes 0) coincides with `ℚ` division by zero
yielding 0. -/
def calculateRecentTrend (cycles : List CycleRecord) : ℚ :=
  if cycles.length < 3 then 0
  else
    let y := cycles.map fun c => c.length
    let n : ℚ := cycles.length
    let sumX : ℚ := ((List.range cycles.length).map fun i => (i : ℚ)).sum
    let sumY : ℚ := y.sum
    let sumXY : ℚ := (y.enum.map fun p => (p.1 : ℚ) * p.2).sum
    let sumXX : ℚ := ((List.range cycles.length).map fun i => ((i : ℚ)) ^ 2).sum
    (n * sumXY - sumX * sumY) / (n * sumXX - sumX * sumX)

/-- `predictCycleLength`: average length plus the OLS trend of the last up to
6 cycles, rounded to an integer and clamped to `[21, 35]`. -/
def predictCycleLength (cycles : List CycleRecord) (stats : Stats) : ℚ :=
  if cycles.length < 2 then stats.averageLength
  else
    let recentTrend := calculateRecentTrend (cycles.drop (cycles.length - 6))
    let adjustedLength := stats.averageLength + recentTrend
    max minCycleLength (min maxCycleLength (round0 adjustedLength))

/-- `predictFollowing3Cycles`: three further starts, each one unadjusted
average length after the previous. -/
def predictFollowing3Cycles (startDate : ℚ) (stats : Stats) : List FollowCycle :=
  (List.range 3).map fun i =>
    { startDate := startDate + ((i : ℚ) + 1) * stats.averageLength * msPerDay,
      estimatedLength := stats.averageLength }

/-- `predictOvulation`: `cycleStart + (averageLength - lutealLength - 1)`
days — note it uses the *statistics average*, not the trend-adjusted
estimated length. -/
def predictOvulation (cycleStart : ℚ) (stats : Stats) (settings : Settings) : ℚ :=
  cycleStart + (stats.averageLength - lutealOf settings - 1) * msPerDay

/-- `predictLutealPhase`: `lutealStart = averageLength - lutealLength + 1`,
date `cycleStart + (lutealStart - 1)` days. -/
def predictLutealPhase (cycleStart : ℚ) (stats : Stats) (settings : Settings) : ℚ :=
  cycleStart + (stats.averageLength - lutealOf settings + 1 - 1) * msPerDay

/-- `calculateFertilityScore`: triangular curve peaking at the midpoint of
the window. -/
def calculateFertilityScore (date windowStart windowEnd : ℚ) : ℚ :=
  let totalDays := (windowEnd - windowStart) / msPerDay
  let dayInWindow := (date - windowStart) / msPerDay
  let peakDay := totalDays * 0.5
  let distance := |dayInWindow - peakDay|
  max 0.2 (1 - distance / totalDays)

/-- `generateFertilePhase`: the `while (current <= windowEnd)` day loop;
it visits `windowStart + i` days for `i = 0, …, ⌊(windowEnd-windowStart)/day⌋`
when the window is nonempty. -/
def generateFertilePhase (windowStart windowEnd : ℚ) : List FertileDay :=
  if windowStart ≤ windowEnd then
    (List.range ((⌊(windowEnd - windowStart) / msPerDay⌋).toNat + 1)).map fun i =>
      let d := windowStart + (i : ℚ) * msPerDay
      { date := d, fertility := calculateFertilityScore d windowStart windowEnd }
  else []

/-- `calculateFertilityWindow`: ovulation at
`startDate + (estimatedLength - lutealLength - 1)` days, window
`[ovulation - 5, ovulation + 1]` days. -/
def calculateFertilityWindow (nextCycle : NextCycle) (settings : Settings) :
    FertilityWindow :=
  let lutealLength := lutealOf settings
  let ovulationDay := nextCycle.estimatedLength - lutealLength
  let ovulationDate := nextCycle.startDate + (ovulationDay - 1) * msPerDay
  let windowStart := ovulationDate - 5 * msPerDay
  let windowEnd := ovulationDate + 1 * msPerDay
  { ovulationDate := ovulationDate, windowStart := windowStart,
    windowEnd := windowEnd,
    fertilePhase := generateFertilePhase windowStart windowEnd }

/-- `generatePredictions`; propagates the `predictNextCycleStart` failure
(empty cleaned history) as `none`. -/
noncomputable def generatePredictions (cycles : List CycleRecord) (stats : Stats)
    (settings : Settings) : Option Predictions :=
  (predictNextCycleStart cycles stats settings).map fun nextCycleStart =>
    { nextCycle :=
        { startDate := nextCycleStart,
          estimatedLength := predictCycleLength cycles stats,
          endDate := nextCycleStart + stats.averageLength * msPerDay },
      following3Cycles := predictFollowing3Cycles nextCycleStart stats,
      ovulationDate := predictOvulation nextCycleStart stats settings,
      lutealPhaseStart := predictLutealPhase nextCycleStart stats settings }

/-- `generateRecommendations`. -/
noncomputable def generateRecommendations (stats : Stats) : List Recommendation :=
  (if (20 : ℝ) < stats.irregularityScore then
    [{ type := "health", priority := "high",
       message := "High cycle irregularity detected. Consider consulting a healthcare provider." }]
   else []) ++
  (if stats.totalCycles < 3 then
    [{ type := "data", priority := "medium",
       message := "Track more cycles for improved prediction accuracy." }]
   else []) ++
  (if stats.averageLength < 25 ∨ 32 < stats.averageLength then
    [{ type := "health", priority := "medium",
       message := "Cycle length outside typical range. Monitor closely." }]
   else [])

/-- `calculateConfidence`. -/
def calculateConfidence (cycles : List CycleRecord) : ℚ :=
  if cycles.length = 0 then 0
  else if cycles.length = 1 then 0.3
  else if cycles.length = 2 then 0.5
  else if cycles.length < 6 then 0.7
  else
    let variance := calculateVariance (cycles.map fun c => c.length)
    let consistency := max 0 (1 - variance / 100)
    min 0.95 (0.6 + consistency * 0.35)

/-- `getDefaultPrediction`: the fixed report for an empty raw history,
anchored at `today`; note the source hardcodes the luteal constant `14` on
this path and anchors ovulation at `today`, and ignores the settings
entirely. -/
def getDefaultPrediction (today : ℚ) (_settings : Settings) : Report :=
  let defaultLength : ℚ := 28
  { statistics :=
      { averageLength := defaultLength, standardDeviation := 0,
        irregularityScore := 0, totalCycles := 0, dataQuality := "insufficient" },
    predictions :=
      { nextCycle :=
          { startDate := today + defaultLength * msPerDay,
            estimatedLength := defaultLength,
            endDate := today + 2 * defaultLength * msPerDay },
        following3Cycles := [],
        ovulationDate := today + (defaultLength - 14) * msPerDay,
        lutealPhaseStart := today + (defaultLength - 14 + 1) * msPerDay },
    fertilityWindow :=
      { ovulationDate := today + (defaultLength - 14) * msPerDay,
        windowStart := today + (defaultLength - 19) * msPerDay,
        windowEnd := today + (defaultLength - 13) * msPerDay,
        fertilePhase := [] },
    recommendations :=
      [{ type := "data", priority := "high",
         message := "Start tracking your cycles for personalized predictions." }],
    confidence := 0 }

/-- `analyzeCycles`, the facade.  Result `none` models the `TypeError` thrown
when a non-empty raw history cleans to the empty list. -/
noncomputable def analyzeCycles (today : ℚ) (cycleHistory : List CycleRecord)
    (settings : Settings) : Option Report :=
  if cycleHistory = [] then some (getDefaultPrediction today settings)
  else
    let cleanHistory := cleanCycleData cycleHistory
    let stats := calculateStatistics cleanHistory
    (generatePredictions cleanHistory stats settings).map fun predictions =>
      { statistics := stats,
        predictions := predictions,
        fertilityWindow := calculateFertilityWindow predictions.nextCycle settings,
        recommendations := generateRecommendations stats,
        confidence := calculateConfidence cleanHistory }

end CyclePredictionEngine

/-- Symptom flags consumed by the analyzer (only `severePain` is read). -/
structure Symptoms where
  severePain : Bool := false

structure Insight where
  category : String
  severity : String
  title : String
  message : String
  recommendation : Option String := none
  actionable : Option Bool := none

structure TrendingPattern where
  direction : String
  magnitude : ℚ
  significance : String
deriving DecidableEq

structure CyclicalPattern where
  detected : Bool
  pattern : String
  difference : ℚ
deriving DecidableEq

structure Outlier where
  date : Option ℚ
  length : ℚ
  deviation : ℚ
deriving DecidableEq

/-- Seasonal bucket averages; a `none` models the key being absent when a
bucket has no samples. -/
structure SeasonalAverages where
  spring : Option ℚ
  summer : Option ℚ
  autumn : Option ℚ
  winter : Option ℚ
deriving DecidableEq

structure Patterns where
  seasonal : SeasonalAverages
  trending : Option TrendingPattern
  cyclical : Option CyclicalPattern
  outliers : List Outlier
deriving DecidableEq

structure Risk where
  condition : String
  risk : String
  indicators : List String
  recommendation : String
deriving DecidableEq

structure CycleProfile where
  averageLength : ℚ
  regularity : String
  lengthCategory : String
  totalCycles : ℕ
  trackingPeriod : ℚ
  dataQuality : String
  healthScore : ℚ
deriving DecidableEq

/-- The object assembled by `analyzeFullProfile`: the engine report spread
into the result, plus the analyzer's own fields.  `cycleProfile = none`
models the `{status: no_data}` object, `patterns = none` the
`{insufficient_data: true}` marker. -/
structure FullProfile where
  statistics : Stats
  predictions : Predictions
  fertilityWindow : FertilityWindow
  recommendations : List Recommendation
  confidence : ℚ
  healthInsights : List Insight
  patterns : Option Patterns
  riskAssessment : List Risk
  cycleProfile : Option CycleProfile

namespace CycleAnalyzer

/-- Analyzer `calculateVariance` (population variance with an explicit
empty-list guard). -/
def calculateVariance (values : List ℚ) : ℚ :=
  if values.length = 0 then 0
  else
    let mean := values.sum / values.length
    (values.map fun v => (v - mean) ^ 2).sum / values.length

/-- Exact-arithmetic rendering of the z-score test
`Math.abs(x - mean) / stdDev > 2` with `stdDev = Math.sqrt variance`:
squaring both (nonnegative) sides gives `(x - mean)^2 > 4 * variance`.
For `variance = 0` the float code yields `NaN > 2 = false` when `x = mean`
and `Infinity > 2 = true` otherwise, which this rendering also gives.
`zScoreExceeds2_iff_sqrt` below proves the equivalence with the literal
square-root formulation for positive variance. -/
def zScoreExceeds2 (x mean variance : ℚ) : Prop :=
  4 * variance < (x - mean) ^ 2

instance (x mean variance : ℚ) : Decidable (zScoreExceeds2 x mean variance) := by
  unfold zScoreExceeds2; infer_instance

/-- `detectOutliers`: flag every cycle whose length's z-score against the
full-population mean and standard deviation exceeds 2 in magnitude. -/
def detectOutliers (cycles : List CycleRecord) : List Outlier :=
  let lengths := cycles.map fun c => c.length
  let mean := lengths.sum / lengths.length
  let variance := calculateVariance lengths
  ((cycles.filter fun c => decide (zScoreExceeds2 c.length mean variance)).map
    fun c => { date := c.start, length := c.length, deviation := c.length - mean })

/-- `detectSeasonalPatterns`.  The source buckets by
`new Date(cycle.start).getMonth()` (0-based, host-timezone dependent); the
month extraction is therefore a parameter `getMonth` of the model. -/
def detectSeasonalPatterns (getMonth : ℚ → ℕ) (cycles : List CycleRecord) :
    SeasonalAverages :=
  let bucket := fun (p : ℕ → Prop) [DecidablePred p] =>
    (cycles.filter fun c => decide (p (getMonth (c.start.getD 0)))).map fun c => c.length
  let avg := fun (l : List ℚ) => if l.length > 0 then some (l.sum / l.length) else none
  { spring := avg (bucket fun m => 2 ≤ m ∧ m ≤ 4),
    summer := avg (bucket fun m => 5 ≤ m ∧ m ≤ 7),
    autumn := avg (bucket fun m => 8 ≤ m ∧ m ≤ 10),
    winter := avg (bucket fun m => ¬(2 ≤ m ∧ m ≤ 10)) }

/-- `detectTrendingPatterns`: mean of the last up to 6 cycles against the
mean of all earlier ones; `none` when there are no earlier cycles. -/
def detectTrendingPatterns (cycles : List CycleRecord) : Option TrendingPattern :=
  let recentCycles := cycles.drop (cycles.length - 6)
  let olderCycles := cycles.take (cycles.length - 6)
  if olderCycles = [] then none
  else
    let recentAvg := (recentCycles.map fun c => c.length).sum / recentCycles.length
    let olderAvg := (olderCycles.map fun c => c.length).sum / olderCycles.length
    let trend := recentAvg - olderAvg
    some
      { direction :=
          if 1 < trend then "lengthening"
          else if trend < -1 then "shortening" else "stable",
        magnitude := |trend|,
        significance := if 2 < |trend| then "significant" else "minor" }

/-- `detectCyclicalPatterns`: `null` below 8 cycles, else compare mean length
at even and odd positions. -/
def detectCyclicalPatterns (cycles : List CycleRecord) : Option CyclicalPattern :=
  if cycles.length < 8 then none
  else
    let lengths := cycles.map fun c => c.length
    let evenCycles := (lengths.enum.filter fun p => p.1 % 2 = 0).map fun p => p.2
    let oddCycles := (lengths.enum.filter fun p => p.1 % 2 = 1).map fun p => p.2
    let evenAvg := evenCycles.sum / evenCycles.length
    let oddAvg := oddCycles.sum / oddCycles.length
    let difference := |evenAvg - oddAvg|
    some
      { detected := decide (2 < difference),
        pattern := if oddAvg < evenAvg then "even_longer" else "odd_longer",
        difference := difference }

/-- `detectPatterns`: `none` models the `{insufficient_data: true}` marker
returned below 6 cycles. -/
def detectPatterns (getMonth : ℚ → ℕ) (cycles : List CycleRecord) : Option Patterns :=
  if cycles.length < 6 then none
  else some
    { seasonal := detectSeasonalPatterns getMonth cycles,
      trending := detectTrendingPatterns cycles,
      cyclical := detectCyclicalPatterns cycles,
      outliers := detectOutliers cycles }

/-- `generateHealthInsights`. -/
def generateHealthInsights (cycles : List CycleRecord) (symptoms : Symptoms) :
    List Insight :=
  if cycles = [] then
    [{ category := "tracking", severity := "info", title := "Start Your Journey",
       message := "Begin tracking to unlock personalized health insights.",
       actionable := some true }]
  else
    let lengths := cycles.map fun c => c.length
    let avgLength := lengths.sum / lengths.length
    let variance := calculateVariance lengths
    (if avgLength < 21 then
      [{ category := "cycle_length", severity := "warning", title := "Very Short Cycles",
         message := "Cycles under 21 days may indicate hormonal imbalances.",
         recommendation := some "Consider consulting a healthcare provider." }]
     else if 38 < avgLength then
      [{ category := "cycle_length", severity := "warning", title := "Very Long Cycles",
         message := "Cycles over 38 days may need medical evaluation.",
         recommendation := some "Track symptoms and consult a healthcare provider." }]
     else []) ++
    (if 49 < variance then
      [{ category := "regularity", severity := "caution", title := "Irregular Cycles",
         message := "High variation in cycle length detected.",
         recommendation := some "Track lifestyle factors that might influence cycles." }]
     else []) ++
    (if symptoms.severePain then
      [{ category := "symptoms", severity := "warning", title := "Severe Pain",
         message := "Severe menstrual pain may indicate underlying conditions.",
         recommendation := some "Discuss pain management with your doctor." }]
     else [])

/-- `assessHealthRisks`. -/
def assessHealthRisks (cycles : List CycleRecord) (_symptoms : Symptoms) : List Risk :=
  if cycles = [] then []
  else
    let lengths := cycles.map fun c => c.length
    let avgLength := lengths.sum / lengths.length
    let variance := calculateVariance lengths
    (if 35 < avgLength ∨ 64 < variance then
      [{ condition := "PCOS", risk := "moderate",
         indicators := ["long_cycles", "irregular_cycles"],
         recommendation := "Consider PCOS screening with healthcare provider" }]
     else []) ++
    (if avgLength < 24 ∨ 38 < avgLength then
      [{ condition := "thyroid_dysfunction", risk := "low_to_moderate",
         indicators := ["cycle_length_extremes"],
         recommendation := "Thyroid function tests may be beneficial" }]
     else []) ++
    (if 36 < variance then
      [{ condition := "hormonal_imbalance", risk := "moderate",
         indicators := ["high_variability"],
         recommendation := "Track lifestyle factors and consider hormone evaluation" }]
     else [])

/-- `calculateTrackingPeriod`: months between first and last start,
with a 30.44-day month. -/
def calculateTrackingPeriod (cycles : List CycleRecord) : ℚ :=
  if cycles = [] then 0
  else
    let firstCycle := (cycles.head?.map fun c => c.start.getD 0).getD 0
    let lastCycle := ((cycles.getLast?.map fun c => c.start.getD 0)).getD 0
    round0 ((lastCycle - firstCycle) / (1000 * 60 * 60 * 24 * (30.44 : ℚ)))

/-- Analyzer `assessDataQuality` — a different tier table from the engine's. -/
def assessDataQuality (cycles : List CycleRecord) : String :=
  if cycles.length = 0 then "none"
  else if cycles.length < 3 then "insufficient"
  else if cycles.length < 6 then "limited"
  else if cycles.length < 12 then "good"
  else "excellent"

/-- `calculateHealthScore`. -/
def calculateHealthScore (avgLength variance : ℚ) (cycleCount : ℕ) : ℚ :=
  let score : ℚ := 100 - min 30 (variance * 2)
  let score := if avgLength < 25 ∨ 32 < avgLength
    then score - min 20 (|avgLength - 28.5| * 2) else score
  let score := if 6 ≤ cycleCount then score + 5 else score
  let score := if 12 ≤ cycleCount then score + 5 else score
  max 0 (min 100 (round0 score))

/-- `createCycleProfile`: `none` models the `{status: no_data}` object. -/
def createCycleProfile (cycles : List CycleRecord) : Option CycleProfile :=
  if cycles = [] then none
  else
    let lengths := cycles.map fun c => c.length
    let avgLength := lengths.sum / lengths.length
    let variance := calculateVariance lengths
    some
      { averageLength := round1 avgLength,
        regularity :=
          if variance < 4 then "very_regular"
          else if variance < 9 then "regular"
          else if variance < 25 then "somewhat_irregular"
          else "irregular",
        lengthCategory :=
          if avgLength < 25 then "short"
          else if avgLength ≤ 32 then "normal"
          else "long",
        totalCycles := cycles.length,
        trackingPeriod := calculateTrackingPeriod cycles,
        dataQuality := assessDataQuality cycles,
        healthScore := calculateHealthScore avgLength variance cycles.length }

/-- `analyzeFullProfile`: the engine report (computed first; an engine
exception aborts the whole call) spread into the profile object. -/
noncomputable def analyzeFullProfile (getMonth : ℚ → ℕ) (today : ℚ)
    (cycleData : List CycleRecord) (symptoms : Symptoms) (settings : Settings) :
    Option FullProfile :=
  (CyclePredictionEngine.analyzeCycles today cycleData settings).map fun prediction =>
    { statistics := prediction.statistics,
      predictions := prediction.predictions,
      fertilityWindow := prediction.fertilityWindow,
      recommendations := prediction.recommendations,
      confidence := prediction.confidence,
      healthInsights := generateHealthInsights cycleData symptoms,
      patterns := detectPatterns getMonth cycleData,
      riskAssessment := assessHealthRisks cycleData symptoms,
      cycleProfile := createCycleProfile cycleData }

end CycleAnalyzer

/-! Concrete histories used by witness and counterexample theorems. -/

/-- One record whose length (40) is outside `[21, 35]`: non-empty input, but
every record dropped by cleaning. -/
def allDroppedHistory : List CycleRecord := [⟨some 0, 40⟩]

/-- Three cycles with lengths 28, 30, 26, starts 0, 28 and 58 days. -/
def hist3 : List CycleRecord :=
  [⟨some 0, 28⟩, ⟨some (28 * msPerDay), 30⟩, ⟨some (58 * msPerDay), 26⟩]

/-- Six perfectly regular cycles of length 28, 28 days apart. -/
def hist6flat : List CycleRecord :=
  [⟨some 0, 28⟩, ⟨some (28 * msPerDay), 28⟩, ⟨some (56 * msPerDay), 28⟩,
   ⟨some (84 * msPerDay), 28⟩, ⟨some (112 * msPerDay), 28⟩,
   ⟨some (140 * msPerDay), 28⟩]

/-- A seventh record of length 35 appended after `hist6flat`. -/
def rec35 : CycleRecord := ⟨some (200 * msPerDay), 35⟩

/-- Seven cycles of length 28 followed by one of length 38. -/
def hist8outlier : List CycleRecord :=
  [⟨some 0, 28⟩, ⟨some (28 * msPerDay), 28⟩, ⟨some (56 * msPerDay), 28⟩,
   ⟨some (84 * msPerDay), 28⟩, ⟨some (112 * msPerDay), 28⟩,
   ⟨some (140 * msPerDay), 28⟩, ⟨some (168 * msPerDay), 28⟩,
   ⟨some (196 * msPerDay), 38⟩]

/-- Four regular cycles of length 28 (a history of between 3 and 5 records
that survives cleaning unchanged). -/
def hist4flat : List CycleRecord :=
  [⟨some 0, 28⟩, ⟨some (28 * msPerDay), 28⟩, ⟨some (56 * msPerDay), 28⟩,
   ⟨some (84 * msPerDay), 28⟩]

/-- A single in-range record. -/
def hist1 : List CycleRecord := [⟨some 0, 28⟩]

/-!  Helper lemmas shared by the claim theorems.  -/

lemma sum_map_sq_sub (l : List ℚ) (m : ℚ) :
    (l.map fun v => (v - m) ^ 2).sum =
      (l.map fun v => v ^ 2).sum - 2 * m * l.sum + l.length * m ^ 2 := by
  induction l with
  | nil => simp
  | cons a t ih =>
    simp only [List.map_cons, List.sum_cons, List.length_cons, ih]
    push_cast
    ring

lemma sum_map_linear (l : List ℚ) (a b : ℚ) :
    (l.map fun x => a * x + b).sum = a * l.sum + b * l.length := by
  induction l with
  | nil => simp
  | cons c t ih =>
    simp only [List.map_cons, List.sum_cons, List.length_cons, ih]
    push_cast
    ring

lemma sum_sq_le_of_bounds (l : List ℚ) (h : ∀ x ∈ l, 21 ≤ x ∧ x ≤ 35) :
    (l.map fun v => v ^ 2).sum ≤ 56 * l.sum - 735 * l.length := by
  have h1 : (l.map fun v => v ^ 2).sum ≤ (l.map fun v => 56 * v + -735).sum :=
    List.sum_le_sum fun i hi => by nlinarith [(h i hi).1, (h i hi).2]
  rw [sum_map_linear] at h1
  linarith

/-- Population variance of values in `[21, 35]` is at most `49 = ((35-21)/2)²`. -/
lemma engine_variance_le_49 (l : List ℚ) (h : ∀ x ∈ l, 21 ≤ x ∧ x ≤ 35) :
    CyclePredictionEngine.calculateVariance l ≤ 49 := by
  rcases eq_or_ne l [] with rfl | hne
  · simp [CyclePredictionEngine.calculateVariance]
  · have hn : 0 < (l.length : ℚ) := by
      exact_mod_cast List.length_pos.mpr hne
    unfold CyclePredictionEngine.calculateVariance
    simp only []
    rw [sum_map_sq_sub, div_le_iff₀ hn]
    have hq := sum_sq_le_of_bounds l h
    have hm : l.sum / (l.length : ℚ) * (l.length : ℚ) = l.sum :=
      div_mul_cancel₀ _ hn.ne'
    nlinarith [mul_nonneg hn.le (sq_nonneg (l.sum / (l.length : ℚ) - 28)), hq, hm, hn]

/-- Every record surviving `cleanCycleData` has a present start and an
in-range length. -/
lemma mem_cleanCycleData {c : CycleRecord} {raw : List CycleRecord}
    (h : c ∈ CyclePredictionEngine.cleanCycleData raw) :
    c.start.isSome ∧ 21 ≤ c.length ∧ c.length ≤ 35 := by
  unfold CyclePredictionEngine.cleanCycleData at h
  rw [List.mem_insertionSort] at h
  have h2 := List.of_mem_filter h
  have h3 := List.mem_of_mem_filter h
  have h4 := List.of_mem_filter h3
  simp only [CyclePredictionEngine.minCycleLength,
    CyclePredictionEngine.maxCycleLength, Bool.and_eq_true, decide_eq_true_eq] at h2 h4
  exact ⟨h4.1, h2.1, h2.2⟩

lemma cleanCycleData_nil : CyclePredictionEngine.cleanCycleData [] = [] := rfl

/-- Claim C1 failing input: cleaning drops the single (length-40) record. -/
lemma cleanCycleData_allDropped :
    CyclePredictionEngine.cleanCycleData allDroppedHistory = [] := by
  decide

/-- C1.  The spec asserts `analyzeCycles` never raises and degrades to the
documented defaults on malformed input; but a non-empty history all of whose
records are dropped during cleaning (length outside `[21, 35]`) makes
`predictNextCycleStart` read `.start` of `undefined` and throw a `TypeError`
(modelled as `none`), for every settings object and on every day. -/
theorem C1_analyzeCycles_throws_when_all_records_dropped (today : ℚ) (s : Settings) :
    CyclePredictionEngine.analyzeCycles today allDroppedHistory s = none := by
  have hne : allDroppedHistory ≠ [] := by decide
  simp only [CyclePredictionEngine.analyzeCycles, if_neg hne,
    CyclePredictionEngine.generatePredictions,
    CyclePredictionEngine.predictNextCycleStart, cleanCycleData_allDropped,
    List.getLast?_nil]
  rfl

/-- Unfolding of `analyzeCycles` when the cleaned history is non-empty:
the engine reaches the main path and the report's fields are the modelled
sub-computations. -/
lemma analyzeCycles_of_getLast (today : ℚ) (raw : List CycleRecord) (s : Settings)
    (lastCycle : CycleRecord)
    (hl : (CyclePredictionEngine.cleanCycleData raw).getLast? = some lastCycle) :
    CyclePredictionEngine.analyzeCycles today raw s =
      (let cleaned := CyclePredictionEngine.cleanCycleData raw
       let stats := CyclePredictionEngine.calculateStatistics cleaned
       let nextStart := lastCycle.start.getD 0 +
         (if s.advancedEstimation = true ∧ 3 ≤ cleaned.length then
            CyclePredictionEngine.weightedRecentLength cleaned
          else stats.averageLength) * msPerDay
       let nextCycle : NextCycle :=
         ⟨nextStart, CyclePredictionEngine.predictCycleLength cleaned stats,
          nextStart + stats.averageLength * msPerDay⟩
       some
         { statistics := stats,
           predictions :=
             ⟨nextCycle, CyclePredictionEngine.predictFollowing3Cycles nextStart stats,
              CyclePredictionEngine.predictOvulation nextStart stats s,
              CyclePredictionEngine.predictLutealPhase nextStart stats s⟩,
           fertilityWindow :=
             CyclePredictionEngine.calculateFertilityWindow nextCycle s,
           recommendations := CyclePredictionEngine.generateRecommendations stats,
           confidence :=
             CyclePredictionEngine.calculateConfidence cleaned }) := by
  have hclean : CyclePredictionEngine.cleanCycleData raw ≠ [] := by
    intro hnil
    rw [hnil] at hl
    exact Option.noConfusion hl
  have hraw : raw ≠ [] := by
    intro hr
    exact hclean (hr ▸ cleanCycleData_nil)
  simp only [CyclePredictionEngine.analyzeCycles, if_neg hraw,
    CyclePredictionEngine.generatePredictions,
    CyclePredictionEngine.predictNextCycleStart, hl, Option.map_some']

/-- C2 counterexample: on the history with lengths `[28, 30, 26]` the report's
`predictions.ovulationDate` (99 days, from the statistics average 28) and
`fertilityWindow.ovulationDate` (98 days, from the trend-adjusted estimated
length 27) differ, so they are not computed from the same next-cycle
estimated length. -/
theorem C2_counterexample_ovulation_dates_differ :
    (CyclePredictionEngine.analyzeCycles 0 hist3 {}).map
        (fun r => (r.predictions.ovulationDate, r.fertilityWindow.ovulationDate)) =
      some (8553600000, 8467200000) ∧ (8553600000 : ℚ) ≠ 8467200000 := by
  have hclean : CyclePredictionEngine.cleanCycleData hist3 = hist3 := by
    norm_num [CyclePredictionEngine.cleanCycleData, hist3, List.insertionSort,
      List.orderedInsert, List.filter, CyclePredictionEngine.minCycleLength,
      CyclePredictionEngine.maxCycleLength, msPerDay]
  have hl : (CyclePredictionEngine.cleanCycleData hist3).getLast? =
      some ⟨some (58 * msPerDay), 26⟩ := by rw [hclean]; rfl
  have havg : (CyclePredictionEngine.calculateStatistics hist3).averageLength = 28 := by
    rw [CyclePredictionEngine.calculateStatistics, if_neg (by simp [hist3])]
    norm_num [hist3, round2]
  have htrend : CyclePredictionEngine.calculateRecentTrend hist3 = -1 := by
    rw [CyclePredictionEngine.calculateRecentTrend, if_neg (by norm_num [hist3])]
    norm_num [hist3, List.enum, List.enumFrom, List.range_succ]
  have hest : CyclePredictionEngine.predictCycleLength hist3
      (CyclePredictionEngine.calculateStatistics hist3) = 27 := by
    rw [CyclePredictionEngine.predictCycleLength, if_neg (by norm_num [hist3])]
    have hdrop : hist3.drop (hist3.length - 6) = hist3 := by norm_num [hist3]
    rw [hdrop, htrend, havg]
    norm_num [round0, max_def, min_def, CyclePredictionEngine.minCycleLength,
      CyclePredictionEngine.maxCycleLength]
  refine ⟨?_, by norm_num⟩
  rw [analyzeCycles_of_getLast 0 hist3 {} _ hl]
  simp only [hclean, Option.map_some', CyclePredictionEngine.predictOvulation,
    CyclePredictionEngine.calculateFertilityWindow, havg, hest]
  norm_num [msPerDay, lutealOf]

/-- C2 (amended).  Both ovulation dates are instances of the one formula
`cycleStart + (L - lutealLength - 1) days`, but with two different lengths
`L`: `predictions.ovulationDate` uses the statistics' average length, while
`fertilityWindow.ovulationDate` uses the next cycle's trend-adjusted rounded
`estimatedLength`; they coincide only when those two lengths are equal. -/
theorem C2_ovulation_dates_formulas (today : ℚ) (raw : List CycleRecord)
    (s : Settings) (h : CyclePredictionEngine.cleanCycleData raw ≠ []) :
    ∃ r : Report, CyclePredictionEngine.analyzeCycles today raw s = some r ∧
      r.predictions.ovulationDate =
        r.predictions.nextCycle.startDate +
          (r.statistics.averageLength - lutealOf s - 1) * msPerDay ∧
      r.fertilityWindow.ovulationDate =
        r.predictions.nextCycle.startDate +
          (r.predictions.nextCycle.estimatedLength - lutealOf s - 1) * msPerDay := by
  obtain ⟨lastCycle, hl⟩ :=
    Option.isSome_iff_exists.mp (List.getLast?_isSome.mpr h)
  rw [analyzeCycles_of_getLast today raw s lastCycle hl]
  simp only []
  refine ⟨_, rfl, ?_, ?_⟩
  · simp only [CyclePredictionEngine.predictOvulation]
  · simp only [CyclePredictionEngine.calculateFertilityWindow]

/-- Witness for C2 at a concrete single-record history. -/
theorem C2_ovulation_dates_formulas_witness :
    CyclePredictionEngine.cleanCycleData hist1 ≠ [] ∧
      (∃ r : Report, CyclePredictionEngine.analyzeCycles 0 hist1 {} = some r ∧
        r.predictions.ovulationDate =
          r.predictions.nextCycle.startDate +
            (r.statistics.averageLength - lutealOf {} - 1) * msPerDay ∧
        r.fertilityWindow.ovulationDate =
          r.predictions.nextCycle.startDate +
            (r.predictions.nextCycle.estimatedLength - lutealOf {} - 1) * msPerDay) :=
  have h1 : CyclePredictionEngine.cleanCycleData hist1 ≠ [] := by
    norm_num [CyclePredictionEngine.cleanCycleData, hist1, List.insertionSort,
      List.orderedInsert, List.filter, CyclePredictionEngine.minCycleLength,
      CyclePredictionEngine.maxCycleLength]
  ⟨h1, C2_ovulation_dates_formulas 0 hist1 {} h1⟩

/-- C3 counterexample: `hist6flat` is a cleaned history (cleaning is the
identity on it) of six in-range cycles with confidence `0.95`; appending the
in-range record `rec35` (length 35) increases the variance and *drops* the
confidence to `0.929`, so `calculateConfidence` is not non-decreasing in
sample count. -/
theorem C3_counterexample_confidence_decreases :
    CyclePredictionEngine.cleanCycleData hist6flat = hist6flat ∧
    (21 ≤ rec35.length ∧ rec35.length ≤ 35) ∧
    CyclePredictionEngine.calculateConfidence (hist6flat ++ [rec35]) <
      CyclePredictionEngine.calculateConfidence hist6flat := by
  refine ⟨?_, by norm_num [rec35], ?_⟩
  · norm_num [CyclePredictionEngine.cleanCycleData, hist6flat, List.range_succ,
      List.insertionSort, List.orderedInsert, List.filter,
      CyclePredictionEngine.minCycleLength, CyclePredictionEngine.maxCycleLength,
      msPerDay]
  · norm_num [CyclePredictionEngine.calculateConfidence,
      CyclePredictionEngine.calculateVariance, hist6flat, rec35, List.range_succ,
      min_def, max_def, msPerDay]

/-- C3 (amended).  Appending one in-range record to a cleaned history of
*fewer than six* records never decreases `calculateConfidence` (the tier
values 0, 0.3, 0.5, 0.7 are increasing, and entering the variance-based tier
with six in-range records always yields at least 0.7785); for histories of
six or more records a variance increase can decrease the score, as the
counterexample shows. -/
theorem C3_confidence_nondecreasing_below_six (h : List CycleRecord)
    (r : CycleRecord) (hb : ∀ c ∈ h, 21 ≤ c.length ∧ c.length ≤ 35)
    (hr1 : 21 ≤ r.length) (hr2 : r.length ≤ 35) (hlen : h.length < 6) :
    CyclePredictionEngine.calculateConfidence h ≤
      CyclePredictionEngine.calculateConfidence (h ++ [r]) := by
  have hall : ∀ x ∈ (h ++ [r]).map (fun c => c.length), 21 ≤ x ∧ x ≤ 35 := by
    intro x hx
    rw [List.mem_map] at hx
    obtain ⟨c, hc, rfl⟩ := hx
    rcases List.mem_append.mp hc with hc | hc
    · exact hb c hc
    · rcases List.mem_singleton.mp hc with rfl
      exact ⟨hr1, hr2⟩
  have hv := engine_variance_le_49 _ hall
  simp only [List.map_append, List.map_cons, List.map_nil] at hv
  unfold CyclePredictionEngine.calculateConfidence
  rw [List.length_append, List.length_singleton]
  set n := h.length with hn
  interval_cases n <;>
    (norm_num [le_min_iff]
     <;> nlinarith [le_max_right (0 : ℚ)
           (1 - CyclePredictionEngine.calculateVariance
             ((h.map fun c => c.length) ++ [r.length]) / 100), hv])

/-- Witness for C3 at the empty history and one in-range record. -/
theorem C3_confidence_nondecreasing_below_six_witness :
    (∀ c ∈ ([] : List CycleRecord), 21 ≤ c.length ∧ c.length ≤ 35) ∧
    (21 : ℚ) ≤ 28 ∧ (28 : ℚ) ≤ 35 ∧ ([] : List CycleRecord).length < 6 ∧
    CyclePredictionEngine.calculateConfidence [] ≤
      CyclePredictionEngine.calculateConfidence ([] ++ [⟨some 0, 28⟩]) :=
  ⟨by simp, by norm_num, by norm_num, by norm_num,
   C3_confidence_nondecreasing_below_six [] ⟨some 0, 28⟩ (by simp)
     (by norm_num) (by norm_num) (by norm_num)⟩

/-- C4.  With `advancedEstimation` on and at least 3 cycles, the predicted
length is `0.5*a + 0.3*b + 0.2*c` for the three most recent cycle lengths
`[a, b, c]` in chronological (oldest-to-newest) order — the weight array is
applied index-wise to `slice(-3)`, so the *oldest* of the three gets 0.5 —
and the next cycle start is the last known start plus that length in days. -/
theorem C4_advanced_estimation_weights (init : List CycleRecord)
    (a b c : CycleRecord) (sc : ℚ) (stats : Stats) (s : Settings)
    (hadv : s.advancedEstimation = true) (hc : c.start = some sc) :
    CyclePredictionEngine.predictNextCycleStart (init ++ [a, b, c]) stats s =
      some (sc + (0.5 * a.length + 0.3 * b.length + 0.2 * c.length) * msPerDay) := by
  have hlast : (init ++ [a, b, c]).getLast? = some c := by
    rw [List.getLast?_append_of_ne_nil init (by simp)]; rfl
  have hlen : (init ++ [a, b, c]).length = init.length + 3 := by simp
  have hdrop : (init ++ [a, b, c]).drop ((init ++ [a, b, c]).length - 3) =
      [a, b, c] := by
    rw [hlen, Nat.add_sub_cancel]
    exact List.drop_left init [a, b, c]
  rw [CyclePredictionEngine.predictNextCycleStart]
  simp only [hlast]
  rw [if_pos ⟨hadv, by omega⟩]
  unfold CyclePredictionEngine.weightedRecentLength
  rw [hdrop]
  simp only [hc, Option.getD_some, List.zip_cons_cons, List.zip_nil_left,
    List.foldl_cons, List.foldl_nil, Option.some.injEq]
  ring

/-- Witness for C4 at a concrete three-record history. -/
theorem C4_advanced_estimation_weights_witness :
    ({ lutealLength := none, advancedEstimation := true } : Settings).advancedEstimation
        = true ∧
    (⟨some 2, 26⟩ : CycleRecord).start = some 2 ∧
    CyclePredictionEngine.predictNextCycleStart
        ([] ++ [⟨some 0, 28⟩, ⟨some 1, 30⟩, ⟨some 2, 26⟩])
        ⟨28, 0, 0, 3, none, none, none, "moderate"⟩
        { lutealLength := none, advancedEstimation := true } =
      some (2 + (0.5 * 28 + 0.3 * 30 + 0.2 * 26) * msPerDay) :=
  ⟨rfl, rfl,
   C4_advanced_estimation_weights [] ⟨some 0, 28⟩ ⟨some 1, 30⟩ ⟨some 2, 26⟩ 2
     ⟨28, 0, 0, 3, none, none, none, "moderate"⟩
     { lutealLength := none, advancedEstimation := true } rfl rfl⟩

/-- Bounds on `√(8/3) ≈ 1.63299…` tight enough for both roundings of C5. -/
lemma sqrt_eight_thirds_bounds :
    (1.631 : ℝ) ≤ Real.sqrt (8/3) ∧ Real.sqrt (8/3) < 1.6338 := by
  constructor
  · rw [Real.le_sqrt (by norm_num)] <;> norm_num
  · rw [Real.sqrt_lt' (by norm_num)]
    norm_num

/-- C5 counterexample: on the cleaned history with lengths `[28, 30, 26]`
the irregularity score is computed from the *unrounded* standard deviation
(`√(8/3)/28·100 = 5.8321… → 5.83`), not from the rounded `1.63`
(which would give `5.82`); the claimed value `5.82` is wrong. -/
theorem C5_counterexample_irregularity_is_not_582 :
    (CyclePredictionEngine.calculateStatistics hist3).irregularityScore ≠ 5.82 := by
  have hproj : (CyclePredictionEngine.calculateStatistics hist3).irregularityScore =
      round2R (Real.sqrt ((8:ℝ)/3) / 28 * 100) := by
    rw [CyclePredictionEngine.calculateStatistics, if_neg (by simp [hist3])]
    norm_num [hist3]
  have hfloor : (⌊Real.sqrt ((8:ℝ)/3) / 28 * 100 * 100 + 1/2⌋ : ℤ) = 583 := by
    obtain ⟨h1, h2⟩ := sqrt_eight_thirds_bounds
    rw [Int.floor_eq_iff]
    constructor <;> push_cast <;> nlinarith
  rw [hproj, round2R, hfloor]
  norm_num

/-- C5 (amended).  For the cleaned history with lengths `[28, 30, 26]`,
`calculateStatistics` returns `averageLength = 28`,
`standardDeviation = 1.63` (rounded `√(8/3)`), and
`irregularityScore = 5.83` — the rounding of the exact coefficient of
variation `√(8/3)/28·100 = 5.8321…`, not the claimed `5.82`. -/
theorem C5_statistics_on_28_30_26 :
    (CyclePredictionEngine.calculateStatistics hist3).averageLength = 28 ∧
    (CyclePredictionEngine.calculateStatistics hist3).standardDeviation = 1.63 ∧
    (CyclePredictionEngine.calculateStatistics hist3).irregularityScore = 5.83 := by
  obtain ⟨h1, h2⟩ := sqrt_eight_thirds_bounds
  refine ⟨?_, ?_, ?_⟩
  · rw [CyclePredictionEngine.calculateStatistics, if_neg (by simp [hist3])]
    norm_num [hist3, round2]
  · have hproj : (CyclePredictionEngine.calculateStatistics hist3).standardDeviation =
        round2R (Real.sqrt ((8:ℝ)/3)) := by
      rw [CyclePredictionEngine.calculateStatistics, if_neg (by simp [hist3])]
      norm_num [hist3]
    have hfloor : (⌊Real.sqrt ((8:ℝ)/3) * 100 + 1/2⌋ : ℤ) = 163 := by
      rw [Int.floor_eq_iff]
      constructor <;> push_cast <;> nlinarith
    rw [hproj, round2R, hfloor]
    norm_num
  · have hproj : (CyclePredictionEngine.calculateStatistics hist3).irregularityScore =
        round2R (Real.sqrt ((8:ℝ)/3) / 28 * 100) := by
      rw [CyclePredictionEngine.calculateStatistics, if_neg (by simp [hist3])]
      norm_num [hist3]
    have hfloor : (⌊Real.sqrt ((8:ℝ)/3) / 28 * 100 * 100 + 1/2⌋ : ℤ) = 583 := by
      rw [Int.floor_eq_iff]
      constructor <;> push_cast <;> nlinarith
    rw [hproj, round2R, hfloor]
    norm_num

/-- C6.  On seven 28-day cycles followed by one 38-day cycle, the pattern
report's outlier list is exactly the length-38 cycle (z-score magnitude
`8.75/√10.9375 ≈ 2.65 > 2` against the full-population mean 29.25), and the
even/odd cyclical analysis returns a non-null result exactly when the history
has at least 8 cycles. -/
theorem C6_outliers_and_cyclical_threshold :
    (∀ getMonth : ℚ → ℕ,
      (CycleAnalyzer.detectPatterns getMonth hist8outlier).map (fun p => p.outliers) =
        some [⟨some (196 * msPerDay), 38, 35/4⟩]) ∧
    (∀ cycles : List CycleRecord,
      (CycleAnalyzer.detectCyclicalPatterns cycles).isSome ↔ 8 ≤ cycles.length) := by
  constructor
  · intro getMonth
    rw [CycleAnalyzer.detectPatterns, if_neg (by norm_num [hist8outlier])]
    simp only [Option.map_some']
    norm_num [CycleAnalyzer.detectOutliers, CycleAnalyzer.calculateVariance,
      CycleAnalyzer.zScoreExceeds2, hist8outlier, List.range_succ, List.filter,
      msPerDay]
  · intro cycles
    by_cases hl : cycles.length < 8
    · rw [CycleAnalyzer.detectCyclicalPatterns, if_pos hl]
      simp only [Option.isSome_none, Bool.false_eq_true, false_iff]
      omega
    · rw [CycleAnalyzer.detectCyclicalPatterns, if_neg hl]
      simp only [Option.isSome_some, true_iff]
      omega

lemma le_sum_of_forall_le (l : List ℚ) (a : ℚ) (h : ∀ x ∈ l, a ≤ x) :
    a * l.length ≤ l.sum := by
  induction l with
  | nil => simp
  | cons c t ih =>
    have hc := h c (List.mem_cons_self c t)
    have ht := ih fun x hx => h x (List.mem_cons_of_mem c hx)
    simp only [List.sum_cons, List.length_cons]
    push_cast
    nlinarith

/-- JavaScript `Math.round(x*100)/100` loses less than `1/200`. -/
lemma round2_gt (x : ℚ) : x - 1/200 < round2 x := by
  unfold round2
  have h := Int.sub_one_lt_floor (x * 100 + 1/2)
  have h2 : ((⌊x * 100 + 1/2⌋ : ℤ) : ℚ) > x * 100 - 1/2 := by linarith
  linarith

lemma calculateStatistics_averageLength (cycles : List CycleRecord)
    (h : cycles ≠ []) :
    (CyclePredictionEngine.calculateStatistics cycles).averageLength =
      round2 ((cycles.map fun c => c.length).sum /
        ((cycles.map fun c => c.length) : List ℚ).length) := by
  rw [CyclePredictionEngine.calculateStatistics, if_neg h]

/-- The statistics' average length of a non-empty cleaned history is
positive (at least `21 - 1/200`). -/
lemma averageLength_pos (raw : List CycleRecord)
    (h : CyclePredictionEngine.cleanCycleData raw ≠ []) :
    0 < (CyclePredictionEngine.calculateStatistics
      (CyclePredictionEngine.cleanCycleData raw)).averageLength := by
  set cleaned := CyclePredictionEngine.cleanCycleData raw with hc
  have hn : 0 < ((cleaned.map fun c => c.length).length : ℚ) := by
    have : 0 < cleaned.length := List.length_pos.mpr h
    simp only [List.length_map]
    exact_mod_cast this
  have hsum : 21 * ((cleaned.map fun c => c.length).length : ℚ) ≤
      (cleaned.map fun c => c.length).sum := by
    apply le_sum_of_forall_le
    intro x hx
    obtain ⟨c, hmem, rfl⟩ := List.mem_map.mp hx
    exact (mem_cleanCycleData (hc ▸ hmem)).2.1
  have hmean : (21 : ℚ) ≤ (cleaned.map fun c => c.length).sum /
      ((cleaned.map fun c => c.length) : List ℚ).length := by
    rw [le_div_iff₀ hn]
    linarith
  rw [calculateStatistics_averageLength cleaned h]
  have := round2_gt ((cleaned.map fun c => c.length).sum /
    ((cleaned.map fun c => c.length) : List ℚ).length)
  linarith

/-- The advanced weighted blend of a cleaned history with at least three
records is positive (at least 21). -/
lemma weightedRecentLength_pos (raw : List CycleRecord)
    (h3 : 3 ≤ (CyclePredictionEngine.cleanCycleData raw).length) :
    0 < CyclePredictionEngine.weightedRecentLength
      (CyclePredictionEngine.cleanCycleData raw) := by
  set cleaned := CyclePredictionEngine.cleanCycleData raw with hc
  have hlen : (cleaned.drop (cleaned.length - 3)).length = 3 := by
    rw [List.length_drop]
    omega
  obtain ⟨a, b, c, habc⟩ := List.length_eq_three.mp hlen
  have hsub : ∀ x ∈ [a, b, c], 21 ≤ x.length := by
    intro x hx
    have : x ∈ cleaned := List.drop_subset _ _ (habc ▸ hx)
    exact (mem_cleanCycleData (hc ▸ this)).2.1
  have ha := hsub a (by simp)
  have hb := hsub b (by simp)
  have hcl := hsub c (by simp)
  unfold CyclePredictionEngine.weightedRecentLength
  rw [habc]
  simp only [List.zip_cons_cons, List.zip_nil_left, List.foldl_cons, List.foldl_nil]
  nlinarith

/-- C7.  For every history with a non-empty cleaned form, the predicted next
cycle start in the report is strictly later than the start of the last
cleaned record, on both the simple-average and the advanced weighted
estimation paths (the settings are universally quantified). -/
theorem C7_next_start_after_last_record (today : ℚ) (raw : List CycleRecord)
    (s : Settings) (h : CyclePredictionEngine.cleanCycleData raw ≠ []) :
    ∃ r lastCycle, CyclePredictionEngine.analyzeCycles today raw s = some r ∧
      (CyclePredictionEngine.cleanCycleData raw).getLast? = some lastCycle ∧
      lastCycle.start.getD 0 < r.predictions.nextCycle.startDate := by
  obtain ⟨lastCycle, hl⟩ := Option.isSome_iff_exists.mp (List.getLast?_isSome.mpr h)
  rw [analyzeCycles_of_getLast today raw s lastCycle hl]
  simp only []
  refine ⟨_, lastCycle, rfl, hl, ?_⟩
  dsimp only
  have hP : 0 < (if s.advancedEstimation = true ∧
      3 ≤ (CyclePredictionEngine.cleanCycleData raw).length then
        CyclePredictionEngine.weightedRecentLength
          (CyclePredictionEngine.cleanCycleData raw)
      else (CyclePredictionEngine.calculateStatistics
        (CyclePredictionEngine.cleanCycleData raw)).averageLength) := by
    split
    · next hcond => exact weightedRecentLength_pos raw hcond.2
    · exact averageLength_pos raw h
  have hmul : 0 < (if s.advancedEstimation = true ∧
      3 ≤ (CyclePredictionEngine.cleanCycleData raw).length then
        CyclePredictionEngine.weightedRecentLength
          (CyclePredictionEngine.cleanCycleData raw)
      else (CyclePredictionEngine.calculateStatistics
        (CyclePredictionEngine.cleanCycleData raw)).averageLength) * msPerDay :=
    mul_pos hP (by norm_num [msPerDay])
  linarith

/-- Witness for C7 at a concrete single-record history. -/
theorem C7_next_start_after_last_record_witness :
    CyclePredictionEngine.cleanCycleData hist1 ≠ [] ∧
      (∃ r lastCycle,
        CyclePredictionEngine.analyzeCycles 0 hist1 {} = some r ∧
        (CyclePredictionEngine.cleanCycleData hist1).getLast? = some lastCycle ∧
        lastCycle.start.getD 0 < r.predictions.nextCycle.startDate) :=
  have h1 : CyclePredictionEngine.cleanCycleData hist1 ≠ [] := by
    norm_num [CyclePredictionEngine.cleanCycleData, hist1, List.insertionSort,
      List.orderedInsert, List.filter, CyclePredictionEngine.minCycleLength,
      CyclePredictionEngine.maxCycleLength]
  ⟨h1, C7_next_start_after_last_record 0 hist1 {} h1⟩

/-- The triangular fertility score lies in `[0.2, 1]` whenever the window is
7 days inclusive (`windowEnd - windowStart = 6` days). -/
lemma fertilityScore_bounds (d ws we : ℚ) (h : we - ws = 6 * msPerDay) :
    0.2 ≤ CyclePredictionEngine.calculateFertilityScore d ws we ∧
      CyclePredictionEngine.calculateFertilityScore d ws we ≤ 1 := by
  unfold CyclePredictionEngine.calculateFertilityScore
  constructor
  · exact le_max_left _ _
  · apply max_le
    · norm_num
    · have htot : (we - ws) / msPerDay = 6 := by rw [h]; norm_num [msPerDay]
      rw [htot]
      have habs : 0 ≤ |(d - ws) / msPerDay - 6 * 0.5| / 6 := by positivity
      linarith

/-- Every fertility window the engine constructs on the main path is 7 days
inclusive and its per-day scores lie in `[0.2, 1]`. -/
lemma calculateFertilityWindow_props (nc : NextCycle) (s : Settings) :
    (CyclePredictionEngine.calculateFertilityWindow nc s).windowEnd -
        (CyclePredictionEngine.calculateFertilityWindow nc s).windowStart =
      6 * msPerDay ∧
    ∀ p ∈ (CyclePredictionEngine.calculateFertilityWindow nc s).fertilePhase,
      0.2 ≤ p.fertility ∧ p.fertility ≤ 1 := by
  unfold CyclePredictionEngine.calculateFertilityWindow
  dsimp only
  constructor
  · ring
  · intro p hp
    unfold CyclePredictionEngine.generateFertilePhase at hp
    split at hp
    · rw [List.mem_map] at hp
      obtain ⟨i, _, rfl⟩ := hp
      exact fertilityScore_bounds _ _ _ (by ring)
    · simp at hp

/-- C8.  Every fertility window the engine produces — on the empty-history
default path and on the main path for every non-empty cleaned history —
spans `windowEnd - windowStart = 6` days (7 days inclusive), and every
per-day score of the generated fertile phase lies in `[0.2, 1]`. -/
theorem C8_fertility_window_seven_days_scores_bounded :
    (∀ (today : ℚ) (s : Settings),
      (CyclePredictionEngine.getDefaultPrediction today s).fertilityWindow.windowEnd -
          (CyclePredictionEngine.getDefaultPrediction today s).fertilityWindow.windowStart =
        6 * msPerDay ∧
      ∀ p ∈ (CyclePredictionEngine.getDefaultPrediction today s).fertilityWindow.fertilePhase,
        0.2 ≤ p.fertility ∧ p.fertility ≤ 1) ∧
    (∀ (today : ℚ) (raw : List CycleRecord) (s : Settings),
      CyclePredictionEngine.cleanCycleData raw ≠ [] →
      ∃ r, CyclePredictionEngine.analyzeCycles today raw s = some r ∧
        r.fertilityWindow.windowEnd - r.fertilityWindow.windowStart = 6 * msPerDay ∧
        ∀ p ∈ r.fertilityWindow.fertilePhase, 0.2 ≤ p.fertility ∧ p.fertility ≤ 1) := by
  constructor
  · intro today s
    refine ⟨?_, ?_⟩
    · unfold CyclePredictionEngine.getDefaultPrediction
      dsimp only
      ring
    · intro p hp
      unfold CyclePredictionEngine.getDefaultPrediction at hp
      simp at hp
  · intro today raw s h
    obtain ⟨lastCycle, hl⟩ :=
      Option.isSome_iff_exists.mp (List.getLast?_isSome.mpr h)
    rw [analyzeCycles_of_getLast today raw s lastCycle hl]
    simp only []
    exact ⟨_, rfl, calculateFertilityWindow_props _ s⟩

/-- Witness for C8's main-path conjunct at a concrete single-record
history. -/
theorem C8_fertility_window_witness :
    CyclePredictionEngine.cleanCycleData hist1 ≠ [] ∧
      (∃ r, CyclePredictionEngine.analyzeCycles 0 hist1 {} = some r ∧
        r.fertilityWindow.windowEnd - r.fertilityWindow.windowStart = 6 * msPerDay ∧
        ∀ p ∈ r.fertilityWindow.fertilePhase, 0.2 ≤ p.fertility ∧ p.fertility ≤ 1) :=
  have h1 : CyclePredictionEngine.cleanCycleData hist1 ≠ [] := by
    norm_num [CyclePredictionEngine.cleanCycleData, hist1, List.insertionSort,
      List.orderedInsert, List.filter, CyclePredictionEngine.minCycleLength,
      CyclePredictionEngine.maxCycleLength]
  ⟨h1, C8_fertility_window_seven_days_scores_bounded.2 0 hist1 {} h1⟩

/-- Cleaning is length-preserving on a history whose records all pass both
filters. -/
lemma cleanCycleData_length_of_valid (raw : List CycleRecord)
    (h : ∀ c ∈ raw, c.start.isSome ∧ c.length ≠ 0 ∧ 21 ≤ c.length ∧ c.length ≤ 35) :
    (CyclePredictionEngine.cleanCycleData raw).length = raw.length := by
  unfold CyclePredictionEngine.cleanCycleData
  have h1 : raw.filter (fun c => c.start.isSome && decide (c.length ≠ 0)) = raw :=
    List.filter_eq_self.mpr fun a ha => by
      simp [(h a ha).1, (h a ha).2.1]
  rw [h1]
  have h2 : raw.filter (fun c => decide (CyclePredictionEngine.minCycleLength ≤ c.length) &&
      decide (c.length ≤ CyclePredictionEngine.maxCycleLength)) = raw :=
    List.filter_eq_self.mpr fun a ha => by
      simp [CyclePredictionEngine.minCycleLength, CyclePredictionEngine.maxCycleLength,
        (h a ha).2.2.1, (h a ha).2.2.2]
  rw [h2, List.length_insertionSort]

/-- C9.  On a fully-surviving history of 3 to 5 records, the engine's
statistics grade the data "moderate" while the analyzer's profile grades the
very same count "limited": the two components use different tier tables
(0/3/6 insufficient/limited/moderate/good versus 0/3/6/12
none/insufficient/limited/good/excellent). -/
theorem C9_two_data_quality_tier_tables (getMonth : ℚ → ℕ) (today : ℚ)
    (raw : List CycleRecord) (symptoms : Symptoms) (s : Settings)
    (hvalid : ∀ c ∈ raw, c.start.isSome ∧ c.length ≠ 0 ∧ 21 ≤ c.length ∧ c.length ≤ 35)
    (h3 : 3 ≤ raw.length) (h6 : raw.length < 6) :
    ∃ r, CycleAnalyzer.analyzeFullProfile getMonth today raw symptoms s = some r ∧
      r.statistics.dataQuality = "moderate" ∧
      (r.cycleProfile.map fun p => p.dataQuality) = some "limited" := by
  have hlen := cleanCycleData_length_of_valid raw hvalid
  have hclean_ne : CyclePredictionEngine.cleanCycleData raw ≠ [] := by
    intro hnil
    rw [hnil] at hlen
    simp at hlen
    omega
  have hraw_ne : raw ≠ [] := by
    intro hnil
    rw [hnil] at h3
    simp at h3
  obtain ⟨lastCycle, hl⟩ :=
    Option.isSome_iff_exists.mp (List.getLast?_isSome.mpr hclean_ne)
  unfold CycleAnalyzer.analyzeFullProfile
  rw [analyzeCycles_of_getLast today raw s lastCycle hl]
  simp only [Option.map_some']
  refine ⟨_, rfl, ?_, ?_⟩
  · dsimp only
    rw [CyclePredictionEngine.calculateStatistics, if_neg hclean_ne]
    show CyclePredictionEngine.assessDataQuality
      (CyclePredictionEngine.cleanCycleData raw) = "moderate"
    rw [CyclePredictionEngine.assessDataQuality, hlen,
      if_neg (by omega), if_neg (by omega), if_pos (by omega)]
  · dsimp only
    rw [CycleAnalyzer.createCycleProfile, if_neg hraw_ne]
    simp only [Option.map_some']
    show some (CycleAnalyzer.assessDataQuality raw) = some "limited"
    rw [CycleAnalyzer.assessDataQuality,
      if_neg (by omega), if_neg (by omega), if_pos (by omega)]

/-- Witness for C9 at a concrete four-record history. -/
theorem C9_two_data_quality_tier_tables_witness :
    (∀ c ∈ hist4flat, c.start.isSome ∧ c.length ≠ 0 ∧ 21 ≤ c.length ∧ c.length ≤ 35) ∧
    3 ≤ hist4flat.length ∧ hist4flat.length < 6 ∧
    (∃ r, CycleAnalyzer.analyzeFullProfile (fun _ => 0) 0 hist4flat {} {} = some r ∧
      r.statistics.dataQuality = "moderate" ∧
      (r.cycleProfile.map fun p => p.dataQuality) = some "limited") :=
  have hvalid : ∀ c ∈ hist4flat,
      c.start.isSome ∧ c.length ≠ 0 ∧ 21 ≤ c.length ∧ c.length ≤ 35 := by
    intro c hc
    simp only [hist4flat, List.mem_cons, List.not_mem_nil, or_false] at hc
    rcases hc with rfl | rfl | rfl | rfl <;> norm_num
  have h3 : 3 ≤ hist4flat.length := by norm_num [hist4flat]
  have h6 : hist4flat.length < 6 := by norm_num [hist4flat]
  ⟨hvalid, h3, h6,
   C9_two_data_quality_tier_tables (fun _ => 0) 0 hist4flat {} {} hvalid h3 h6⟩

/-- C10.  On a perfectly regular history (all lengths equal, at least six
cycles) the population standard deviation is zero; the z-score test — an
exact division by that zero — never flags a record, so `detectOutliers` is
total here and returns the empty list. -/
theorem C10_no_outliers_in_perfectly_regular_history (cycles : List CycleRecord)
    (h6 : 6 ≤ cycles.length)
    (heq : ∀ a ∈ cycles, ∀ b ∈ cycles, a.length = b.length) :
    CycleAnalyzer.detectOutliers cycles = [] := by
  have hne : cycles ≠ [] := by
    intro hnil
    rw [hnil] at h6
    simp at h6
  obtain ⟨c0, hc0⟩ := List.exists_mem_of_ne_nil cycles hne
  have hn : 0 < ((cycles.map fun c => c.length).length : ℚ) := by
    simp only [List.length_map]
    exact_mod_cast List.length_pos.mpr hne
  have hsum : (cycles.map fun c => c.length).sum =
      ((cycles.map fun c => c.length).length : ℚ) * c0.length := by
    rw [List.sum_eq_card_nsmul _ c0.length, nsmul_eq_mul]
    intro x hx
    obtain ⟨c, hc, rfl⟩ := List.mem_map.mp hx
    exact heq c hc c0 hc0
  have hmean : (cycles.map fun c => c.length).sum /
      ((cycles.map fun c => c.length).length : ℚ) = c0.length := by
    rw [hsum, mul_comm, mul_div_assoc, div_self hn.ne', mul_one]
  have hvar : CycleAnalyzer.calculateVariance (cycles.map fun c => c.length) = 0 := by
    unfold CycleAnalyzer.calculateVariance
    rw [if_neg (by simpa using List.length_pos.mpr hne |>.ne')]
    dsimp only
    rw [hmean]
    have hz : ((cycles.map fun c => c.length).map fun v => (v - c0.length) ^ 2).sum = 0 := by
      rw [List.sum_eq_card_nsmul _ 0]
      · simp
      · intro x hx
        obtain ⟨v, hv, rfl⟩ := List.mem_map.mp hx
        obtain ⟨c, hc, rfl⟩ := List.mem_map.mp hv
        rw [heq c hc c0 hc0]
        ring
    rw [hz]
    simp
  unfold CycleAnalyzer.detectOutliers
  dsimp only
  rw [hmean, hvar]
  have hfilter : cycles.filter
      (fun c => decide (CycleAnalyzer.zScoreExceeds2 c.length c0.length 0)) = [] := by
    rw [List.filter_eq_nil_iff]
    intro c hc
    simp only [CycleAnalyzer.zScoreExceeds2, decide_eq_true_eq, not_lt,
      heq c hc c0 hc0]
    norm_num
  rw [hfilter]
  rfl

/-- Witness for C10 at six equal-length cycles. -/
theorem C10_no_outliers_witness :
    6 ≤ hist6flat.length ∧
    (∀ a ∈ hist6flat, ∀ b ∈ hist6flat, a.length = b.length) ∧
    CycleAnalyzer.detectOutliers hist6flat = [] :=
  have h6 : 6 ≤ hist6flat.length := by norm_num [hist6flat]
  have heq : ∀ a ∈ hist6flat, ∀ b ∈ hist6flat, a.length = b.length := by
    intro a ha b hb
    simp only [hist6flat, List.mem_cons, List.not_mem_nil, or_false] at ha hb
    rcases ha with rfl | rfl | rfl | rfl | rfl | rfl <;>
      rcases hb with rfl | rfl | rfl | rfl | rfl | rfl <;> rfl
  ⟨h6, heq, C10_no_outliers_in_perfectly_regular_history hist6flat h6 heq⟩

end Planner
